import Mathlib

/-!
Shallow embedding of `odoo_api_lib` (files `src/api.py`, `src/exceptions.py`)
and proofs about the behaviour of the `API` client class.

Python runtime values that can flow through the client are modelled by the
inductive type `Value`.  The two constructors `vTypeList` and `vTypeDict`
stand for the builtin class objects `list` and `dict`, which appear in the
source as default parameter values (`def search(self, model, query=list,
options=dict)` and `def _query(self, query_type, model, query, options=dict)`).
Dictionary keys are modelled as strings (the only keys the library ever
builds or documents).  Remote communication (`xmlrpc.client.ServerProxy`
followed by `execute_kw`) is modelled by an oracle function from the
constructed call to the decoded result, so every theorem quantifies over
arbitrary remote behaviour.
-/

set_option autoImplicit false

/-- A Python value as used by the library: strings, integers, booleans,
`None`, lists, string-keyed dicts, and the builtin class objects `list`
and `dict` (which occur as default parameter values in `api.py`). -/
inductive Value where
  | vStr : String → Value
  | vInt : Int → Value
  | vBool : Bool → Value
  | vNone : Value
  | vList : List Value → Value
  | vDict : List (String × Value) → Value
  | vTypeList : Value
  | vTypeDict : Value
deriving Repr

/-- Python truthiness (`bool(x)`): empty strings, zero, `False`, `None` and
empty containers are falsy; class objects such as `list` and `dict` are
truthy. -/
def Value.truthy : Value → Bool
  | .vStr s => !s.isEmpty
  | .vInt n => n != 0
  | .vBool b => b
  | .vNone => false
  | .vList l => !l.isEmpty
  | .vDict d => !d.isEmpty
  | .vTypeList => true
  | .vTypeDict => true

/-- The whitespace characters Python strips around an integer literal. -/
def isPySpace (c : Char) : Bool :=
  c == ' ' || c == '\t' || c == '\n' || c == '\r' || c == '\x0b' || c == '\x0c'

/-- Strips leading and trailing whitespace from a character list. -/
def trimChars (l : List Char) : List Char :=
  ((l.dropWhile isPySpace).reverse.dropWhile isPySpace).reverse

/-- Parses a decimal integer literal the way Python `int(str)` does:
optional surrounding whitespace, an optional sign, then at least one digit.
(Underscore digit grouping is not modelled.)  Returns `none` when the
string is not a valid integer literal (Python raises `ValueError` there). -/
def parseIntStr (s : String) : Option Int :=
  let t := trimChars s.data
  let (neg, digits) :=
    match t with
    | '-' :: rest => (true, rest)
    | '+' :: rest => (false, rest)
    | _ => (false, t)
  if digits.isEmpty then none
  else if digits.all (fun c => c.isDigit) then
    let n : Nat := digits.foldl (fun n c => n * 10 + (c.toNat - 48)) 0
    some (if neg then -(n : Int) else (n : Int))
  else none

/-- Python `int(x)` coercion: identity on integers, `True`/`False` become
`1`/`0`, strings are parsed, and everything else fails (`TypeError` /
`ValueError`, both modelled as failure `none`). -/
def pyInt : Value → Option Int
  | .vInt n => some n
  | .vBool b => some (if b then 1 else 0)
  | .vStr s => parseIntStr s
  | _ => none

mutual

/-- Python `repr(x)` for the modelled values.  String escaping inside the
quotes is not modelled (no claim depends on it); containers render with
brackets and a comma-space separator exactly as Python prints them. -/
def pyRepr : Value → String
  | .vStr s => "\x27" ++ s ++ "\x27"
  | .vInt n => toString n
  | .vBool true => "True"
  | .vBool false => "False"
  | .vNone => "None"
  | .vList l => "[" ++ pyReprItems l ++ "]"
  | .vDict d => "\x7b" ++ pyReprPairs d ++ "\x7d"
  | .vTypeList => "<class \x27list\x27>"
  | .vTypeDict => "<class \x27dict\x27>"

/-- Comma-space separated `repr`s of the elements of a list. -/
def pyReprItems : List Value → String
  | [] => ""
  | [v] => pyRepr v
  | v :: rest => pyRepr v ++ ", " ++ pyReprItems rest

/-- Comma-space separated `repr`s of the key-value pairs of a dict. -/
def pyReprPairs : List (String × Value) → String
  | [] => ""
  | [(k, v)] => "\x27" ++ k ++ "\x27: " ++ pyRepr v
  | (k, v) :: rest => "\x27" ++ k ++ "\x27: " ++ pyRepr v ++ ", " ++ pyReprPairs rest

end

/-- Python `str(x)` (used by the `"%s" % (self.hostname)` formatting in
`_connect`): the string itself for strings, `repr` otherwise. -/
def pyStr : Value → String
  | .vStr s => s
  | v => pyRepr v

/-- The keyword arguments accepted by `API.__init__` (`**kwargs`): each
relevant key either was passed (with an arbitrary Python value) or not. -/
structure Kwargs where
  odoo_host : Option Value
  odoo_database : Option Value
  odoo_user : Option Value
  odoo_pass : Option Value
  verify_tls : Option Value

/-- The process environment (`os.environ`): environment values are always
strings when present. -/
structure Environ where
  odoo_host : Option String
  odoo_database : Option String
  odoo_user : Option String
  odoo_pass : Option String
  verify_tls : Option String

/-- Resolution of one configuration field, mirroring
`kwargs.get(key, os.environ.get(key, False))`: the keyword argument wins,
then the environment string, then the literal `False`. -/
def resolve (kw : Option Value) (env : Option String) : Value :=
  match kw with
  | some v => v
  | none =>
    match env with
    | some s => .vStr s
    | none => .vBool false

/-- Resolution of the `verify_tls` flag, mirroring line 64 of `api.py`:
`bool(kwargs.get('verify_tls', os.environ.get('verify_tls', True)))` — the
resolved value (keyword argument, else environment string, else `True`) is
converted by truthiness. -/
def resolveTls (kw : Option Value) (env : Option String) : Bool :=
  (match kw with
   | some v => v
   | none =>
     match env with
     | some s => Value.vStr s
     | none => Value.vBool true).truthy

/-- The errors `api.py` can raise during the modelled operations:
`InputError(field, message)` from `exceptions.py`/`api.py`, and Python's
builtin `ValueError` (raised by `int()` on a non-numeric string). -/
inductive PyErr where
  | InputError (field : String) (message : String)
  | ValueError
deriving Repr, DecidableEq

/-- The message attached to the missing-host `InputError` in `__init__`. -/
def hostnameMessage : String :=
  "The hostname of your Odoo instance is required " ++
  "Set this by doing `export odoo_host=\x27<your hostname>\x27` " ++
  "and run the script again"

/-- The message attached to the missing-database `InputError` in `__init__`. -/
def databaseMessage : String :=
  "The database name of your Odoo instance is required " ++
  "Set this by doing `export odoo_database=\x27<your database>\x27` " ++
  "and run the script again"

/-- The message attached to the missing-password `InputError` in `__init__`. -/
def passwordMessage : String :=
  "The password of your Odoo user is required " ++
  "Set this by doing `export odoo_pass=\x27<your password>\x27` " ++
  "and run the script again"

/-- The state of a constructed `API` object: the five attributes set by
`__init__` (`self.hostname`, `self.database`, `self.user_id`,
`self.user_pass`, `self.verify_tls`). -/
structure API where
  hostname : Value
  database : Value
  user_id : Value
  user_pass : Value
  verify_tls : Bool
deriving Repr

/-- `API.QUERY_TYPES`, the class attribute listing the query types the
`Odoo` instance accepts (line 52 of `api.py`). -/
def API.QUERY_TYPES : List String :=
  ["search", "create", "read", "write", "unlink", "search_read"]

/-- Lines 80-84 of `api.py`: when the resolved user id is falsy, it becomes
`1` and a warning is printed (the returned `Bool` records the warning);
otherwise it is coerced with `int(...)`, which fails (`ValueError`,
modelled as `none`) on non-numeric values. -/
def resolveUserId (v : Value) : Option (Int × Bool) :=
  if !v.truthy then some (1, true)
  else
    match pyInt v with
    | some n => some (n, false)
    | none => none

/-- The validation part of `API.__init__` (lines 66-91 of `api.py`), after
the five fields have been resolved: check the hostname, then the database,
then handle the user id, then check the password; on success return the
constructed object together with the warning flag from the user-id step. -/
def API.initCore (hostname database user_id0 user_pass : Value) (verify_tls : Bool) :
    Except PyErr (API × Bool) :=
  if !hostname.truthy then .error (.InputError "odoo_host" hostnameMessage)
  else if !database.truthy then .error (.InputError "odoo_database" databaseMessage)
  else
    match resolveUserId user_id0 with
    | none => .error .ValueError
    | some (uid, warned) =>
      if !user_pass.truthy then .error (.InputError "odoo_pass" passwordMessage)
      else .ok (⟨hostname, database, .vInt uid, user_pass, verify_tls⟩, warned)

/-- `API.__init__` (lines 54-91 of `api.py`): resolve the five
configuration fields from the keyword arguments with environment fallback,
then validate them. -/
def API.init (kw : Kwargs) (env : Environ) : Except PyErr (API × Bool) :=
  API.initCore
    (resolve kw.odoo_host env.odoo_host)
    (resolve kw.odoo_database env.odoo_database)
    (resolve kw.odoo_user env.odoo_user)
    (resolve kw.odoo_pass env.odoo_pass)
    (resolveTls kw.verify_tls env.verify_tls)

/-- The `xmlrpc.client.ServerProxy` object built by `_connect`: its
endpoint URL, and whether it was constructed with
`ssl._create_unverified_context()` instead of default certificate
verification. -/
structure Connection where
  endpoint : String
  unverified_context : Bool
deriving Repr, DecidableEq

/-- Does `pat` occur as a contiguous run inside the second list?  A
structural scan: at each position, check whether `pat` is a prefix of the
remaining suffix. -/
def subOcc (pat : List Char) : List Char → Bool
  | [] => pat.isEmpty
  | c :: t => pat.isPrefixOf (c :: t) || subOcc pat t

/-- Python substring containment (`pat in s`), used by `_connect` for the
check `"https" in endpoint`. -/
def strContains (s pat : String) : Bool :=
  subOcc pat.data s.data

/-- `API._connect` (lines 93-107 of `api.py`): build the endpoint URL
`"%s/xmlrpc/2/object" % (self.hostname)`; when the endpoint contains
`"https"` and `self.verify_tls` is false, construct the proxy with an
unverified SSL context, otherwise with default verification.  The method
never assigns to `self`, so the state component of the result is the
receiver unchanged. -/
def API._connect (a : API) : API × Connection :=
  let endpoint := pyStr a.hostname ++ "/xmlrpc/2/object"
  (a, if strContains endpoint "https" && !a.verify_tls then
        ⟨endpoint, true⟩
      else
        ⟨endpoint, false⟩)

/-- One call to `execute_kw` on the proxy returned by `_connect`: the
connection it is made on and the positional arguments, in order. -/
structure RemoteCall where
  conn : Connection
  args : List Value
deriving Repr

/-- The message of the `InputError` raised by `_query` for an unsupported
query type: `'Incorrect Type of query. Available types are: %s' %
(', '.join(self.QUERY_TYPES))`. -/
def queryTypeMessage : String :=
  "Incorrect Type of query. Available types are: " ++
  String.intercalate ", " API.QUERY_TYPES

/-- `API._query` (lines 109-131 of `api.py`), with the remote side
abstracted as an `oracle` from the constructed call to the decoded result:
reject a `query_type` outside `QUERY_TYPES` with an `InputError` (the
oracle is not consulted on that path), otherwise call `execute_kw` on a
fresh connection with the positional arguments `(self.database,
self.user_id, self.user_pass, model, query_type, [query], options)` and
return its result unmodified.  The Python default `options=dict` (the
builtin class object) is passed explicitly as `Value.vTypeDict` by the
callers that omit it.  No assignment to `self` occurs, so the state
component is the receiver unchanged. -/
def API._query (oracle : RemoteCall → Value) (a : API)
    (query_type model : String) (query options : Value) :
    API × Except PyErr Value :=
  (a, if query_type ∉ API.QUERY_TYPES then
        .error (.InputError "query_type" queryTypeMessage)
      else
        .ok (oracle ⟨(a._connect).2,
          [a.database, a.user_id, a.user_pass,
           .vStr model, .vStr query_type, .vList [query], options]⟩))

/-- `API.search` (lines 133-154 of `api.py`): replace a falsy `query` by a
fresh empty list and a falsy `options` by `{'limit': 0}`, then dispatch
with query type `'search'`.  The Python defaults are `query=list` and
`options=dict` (the builtin class objects, both truthy); an omitted
argument is modelled by passing `Value.vTypeList` / `Value.vTypeDict`. -/
def API.search (oracle : RemoteCall → Value) (a : API)
    (model : String) (query options : Value) : API × Except PyErr Value :=
  let query := if !query.truthy then Value.vList [] else query
  let options := if !options.truthy then Value.vDict [("limit", Value.vInt 0)] else options
  a._query oracle "search" model query options

/-- `API.create` (lines 156-173 of `api.py`): dispatch with query type
`'create'`; `_query`'s `options` parameter is left at its default, the
builtin `dict` class object. -/
def API.create (oracle : RemoteCall → Value) (a : API)
    (model : String) (query : Value) : API × Except PyErr Value :=
  a._query oracle "create" model query Value.vTypeDict

/-- `API.read` (lines 175-188 of `api.py`): dispatch with query type
`'read'`, forwarding `query` and `options` unchanged. -/
def API.read (oracle : RemoteCall → Value) (a : API)
    (model : String) (query options : Value) : API × Except PyErr Value :=
  a._query oracle "read" model query options

/-- `API.update` (lines 190-201 of `api.py`): dispatch with query type
`'write'`, forwarding `query` and `options` unchanged. -/
def API.update (oracle : RemoteCall → Value) (a : API)
    (model : String) (query options : Value) : API × Except PyErr Value :=
  a._query oracle "write" model query options

/-- `API.delete` (lines 203-214 of `api.py`): dispatch with query type
`'unlink'`; `_query`'s `options` parameter is left at its default, the
builtin `dict` class object. -/
def API.delete (oracle : RemoteCall → Value) (a : API)
    (model : String) (query : Value) : API × Except PyErr Value :=
  a._query oracle "unlink" model query Value.vTypeDict

/-- `API.search_and_read` (lines 216-229 of `api.py`): dispatch with query
type `'search_read'`, forwarding `query` and `options` unchanged. -/
def API.search_and_read (oracle : RemoteCall → Value) (a : API)
    (model : String) (query options : Value) : API × Except PyErr Value :=
  a._query oracle "search_read" model query options

/-- A sample constructed client, used to instantiate closed statements. -/
def sampleAPI : API :=
  ⟨.vStr "https://odoo.example.com", .vStr "db", .vInt 1, .vStr "pw", true⟩

/-- An oracle that answers every remote call with its seventh positional
argument — the `options` mapping — so that the value actually forwarded to
the endpoint becomes observable as the call's result. -/
def optionsForwarded : RemoteCall → Value :=
  fun rc => rc.args.getD 6 Value.vNone

/-- A `Kwargs` record with no keyword arguments passed. -/
def kwEmpty : Kwargs := ⟨none, none, none, none, none⟩

/-- An `Environ` with no relevant environment variables set. -/
def envEmpty : Environ := ⟨none, none, none, none, none⟩

/-- The spec's side condition on 4.2 in its own words: the endpoint
"uses a secure scheme", i.e. its URL scheme is `https`.  Declared for
comparison with the substring test the code actually performs. -/
def specSecureScheme (url : String) : Bool :=
  "https://".data.isPrefixOf url.data

/-- A client whose hostname has scheme `http` but contains `"https"` as a
substring of its domain name, with certificate verification disabled. -/
def apiC4 : API :=
  ⟨.vStr "http://https.example.com", .vStr "db", .vInt 1, .vStr "pw", false⟩

/-- An environment carrying host, database and a non-numeric user id, with
no password anywhere. -/
def envC2 : Environ := ⟨some "h", some "d", some "abc", none, none⟩

/-- An environment whose `verify_tls` variable is the string `"False"`. -/
def envC5 : Environ := ⟨some "h", some "d", none, some "p", some "False"⟩

/-- The client produced by construction from `envC5`. -/
def apiC5 : API := ⟨.vStr "h", .vStr "d", .vInt 1, .vStr "p", true⟩

/-- An environment whose `odoo_user` variable is present but is the empty
string. -/
def envC6 : Environ := ⟨some "h", some "d", some "", some "p", none⟩

/-- An environment with host, database and password set and no user id. -/
def envC6w : Environ := ⟨some "h", some "d", none, some "p", none⟩

/-- Success of `initCore` fixes the `verify_tls` field to the resolved
flag, whatever the other inputs were. -/
theorem initCore_ok_verify_tls {hv dv uv pv : Value} {t : Bool} {a : API} {w : Bool}
    (hok : API.initCore hv dv uv pv t = .ok (a, w)) : a.verify_tls = t := by
  unfold API.initCore at hok
  split at hok
  · exact absurd hok (by simp)
  · split at hok
    · exact absurd hok (by simp)
    · split at hok
      · exact absurd hok (by simp)
      · split at hok
        · exact absurd hok (by simp)
        · simp only [Except.ok.injEq, Prod.mk.injEq] at hok
          rw [← hok.1]

/-- C1: at the failing input — `search` on an empty domain with the
`options` argument left at its default — the value forwarded to the remote
endpoint as the options mapping is the builtin `dict` class object, not
`{'limit': 0}`: the default parameter `options=dict` is truthy, so the
`if not options: options = {'limit': 0}` branch is skipped.  The oracle
`optionsForwarded` echoes back the seventh positional argument of the
remote call, making the forwarded options observable. -/
theorem C1_search_default_options_bug :
    (sampleAPI.search optionsForwarded "res.partner" (Value.vList []) Value.vTypeDict).2 =
      .ok Value.vTypeDict ∧
    Value.vTypeDict ≠ Value.vDict [("limit", Value.vInt 0)] :=
  ⟨rfl, fun h => Value.noConfusion h⟩

/-- C3: `_query` rejects every operation name outside `QUERY_TYPES` with
an `InputError` whose message lists all six valid names, and the result is
the same for every oracle — the remote endpoint is never consulted on the
error path; for every name inside `QUERY_TYPES` the call goes through and
no such error is produced. -/
theorem C3_query_type_validation (oracle : RemoteCall → Value) (a : API)
    (query_type model : String) (query options : Value) :
    (query_type ∉ API.QUERY_TYPES →
      a._query oracle query_type model query options =
        (a, .error (.InputError "query_type"
          "Incorrect Type of query. Available types are: search, create, read, write, unlink, search_read"))) ∧
    (query_type ∈ API.QUERY_TYPES →
      ∃ v, a._query oracle query_type model query options = (a, .ok v)) := by
  constructor
  · intro hq
    simp [API._query, hq]
    rfl
  · intro hq
    exact ⟨oracle ⟨(a._connect).2,
      [a.database, a.user_id, a.user_pass, .vStr model, .vStr query_type,
       .vList [query], options]⟩, by simp [API._query, hq]⟩

/-- Witness for C3 at the concrete names `"frobnicate"` (rejected, with
the oracle never consulted) and `"search"` (accepted). -/
theorem C3_witness :
    ("frobnicate" ∉ API.QUERY_TYPES ∧
      sampleAPI._query optionsForwarded "frobnicate" "res.partner" (Value.vList []) Value.vTypeDict =
        (sampleAPI, .error (.InputError "query_type"
          "Incorrect Type of query. Available types are: search, create, read, write, unlink, search_read"))) ∧
    ("search" ∈ API.QUERY_TYPES ∧
      ∃ v, sampleAPI._query optionsForwarded "search" "res.partner" (Value.vList []) Value.vTypeDict =
        (sampleAPI, .ok v)) :=
  ⟨⟨by decide, (C3_query_type_validation optionsForwarded sampleAPI "frobnicate" "res.partner"
      (Value.vList []) Value.vTypeDict).1 (by decide)⟩,
   ⟨by decide, (C3_query_type_validation optionsForwarded sampleAPI "search" "res.partner"
      (Value.vList []) Value.vTypeDict).2 (by decide)⟩⟩

/-- C4 counterexample: for the hostname `http://https.example.com` — an
insecure `http` scheme whose domain merely contains the substring
`"https"` — with verification disabled, `_connect` nevertheless constructs
the connection with the unverified context, because the code tests
`"https" in endpoint` rather than the URL scheme.  This refutes the claim
that the unverified context is used exactly when the endpoint uses a
secure scheme. -/
theorem C4_counterexample :
    (apiC4._connect).2.unverified_context = true ∧
    specSecureScheme (apiC4._connect).2.endpoint = false ∧
    apiC4.verify_tls = false :=
  ⟨rfl, rfl, rfl⟩

/-- C4 (amended): `_connect` constructs the connection with an unverified
transport-security context exactly when the endpoint URL contains
`"https"` as a substring and the verify-transport-security flag is false;
in every other case it uses default verification. -/
theorem C4_unverified_iff_substring (a : API) :
    (a._connect).2.unverified_context = true ↔
      (strContains (pyStr a.hostname ++ "/xmlrpc/2/object") "https" = true ∧
       a.verify_tls = false) := by
  unfold API._connect
  cases hc : strContains (pyStr a.hostname ++ "/xmlrpc/2/object") "https" <;>
    cases hv : a.verify_tls <;> simp [hc, hv]

/-- Witness for C4 at a concrete client: a `https`-containing endpoint
with verification disabled yields the unverified context. -/
theorem C4_witness : (apiC4._connect).2.unverified_context = true :=
  (C4_unverified_iff_substring apiC4).mpr ⟨rfl, rfl⟩

/-- C7: for every valid operation name, `_query` forwards to the remote
endpoint exactly the positional arguments (database, user id, password,
model, operation name, the query wrapped as a one-element list, the
options mapping), in that order, on a fresh connection, and returns the
oracle's decoded result unmodified. -/
theorem C7_query_forwards (oracle : RemoteCall → Value) (a : API)
    (query_type model : String) (query options : Value)
    (hq : query_type ∈ API.QUERY_TYPES) :
    a._query oracle query_type model query options =
      (a, .ok (oracle ⟨(a._connect).2,
        [a.database, a.user_id, a.user_pass, .vStr model, .vStr query_type,
         .vList [query], options]⟩)) := by
  simp [API._query, hq]

/-- Witness for C7 at the concrete name `"search"` with a constant
oracle. -/
theorem C7_witness :
    ("search" ∈ API.QUERY_TYPES) ∧
    sampleAPI._query (fun _ => Value.vInt 42) "search" "res.partner" (Value.vList [])
        Value.vTypeDict =
      (sampleAPI, .ok (Value.vInt 42)) :=
  ⟨by decide, C7_query_forwards (fun _ => Value.vInt 42) sampleAPI "search" "res.partner"
    (Value.vList []) Value.vTypeDict (by decide)⟩

/-- C8 counterexample: `search` does not forward its `options` argument
unchanged — an explicitly passed empty dict `{}` is replaced by
`{'limit': 0}` before dispatch, as the oracle echoing the forwarded
options shows. -/
theorem C8_counterexample :
    (sampleAPI.search optionsForwarded "res.partner" (Value.vList [Value.vStr "q"])
        (Value.vDict [])).2 =
      .ok (Value.vDict [("limit", Value.vInt 0)]) ∧
    Value.vDict [("limit", Value.vInt 0)] ≠ Value.vDict [] := by
  refine ⟨rfl, ?_⟩
  simp

/-- C8 (amended): each public operation is a direct, unconditional
pass-through to `_query` with its fixed operation name
(`search`→`'search'`, `create`→`'create'`, `read`→`'read'`,
`update`→`'write'`, `delete`→`'unlink'`,
`search_and_read`→`'search_read'`), with no retries and no caching;
`read`, `update` and `search_and_read` forward `query` and `options`
unchanged, `create` and `delete` forward `query` unchanged (leaving
`_query`'s `options` at its default, the builtin `dict` class), while
`search` first replaces a falsy `query` by `[]` and a falsy `options` by
`{'limit': 0}`. -/
theorem C8_pass_through (oracle : RemoteCall → Value) (a : API)
    (model : String) (query options : Value) :
    a.search oracle model query options =
      a._query oracle "search" model
        (if !query.truthy then Value.vList [] else query)
        (if !options.truthy then Value.vDict [("limit", Value.vInt 0)] else options) ∧
    a.create oracle model query = a._query oracle "create" model query Value.vTypeDict ∧
    a.read oracle model query options = a._query oracle "read" model query options ∧
    a.update oracle model query options = a._query oracle "write" model query options ∧
    a.delete oracle model query = a._query oracle "unlink" model query Value.vTypeDict ∧
    a.search_and_read oracle model query options =
      a._query oracle "search_read" model query options :=
  ⟨rfl, rfl, rfl, rfl, rfl, rfl⟩

/-- C9: no operation mutates the configuration — for every oracle, every
receiver and every input, the state component returned by each public or
private operation is the receiver itself, so all five configuration
fields are unchanged. -/
theorem C9_config_immutable (oracle : RemoteCall → Value) (a : API)
    (query_type model : String) (query options : Value) :
    (a._connect).1 = a ∧
    (a._query oracle query_type model query options).1 = a ∧
    (a.search oracle model query options).1 = a ∧
    (a.create oracle model query).1 = a ∧
    (a.read oracle model query options).1 = a ∧
    (a.update oracle model query options).1 = a ∧
    (a.delete oracle model query).1 = a ∧
    (a.search_and_read oracle model query options).1 = a :=
  ⟨rfl, rfl, rfl, rfl, rfl, rfl, rfl, rfl⟩

/-- C10: every public operation passes a literal operation name that is a
member of `QUERY_TYPES`, so the unrecognized-operation error branch of
`_query` is unreachable through the public interface: each call returns a
successful dispatch for every oracle and every input. -/
theorem C10_error_branch_unreachable (oracle : RemoteCall → Value) (a : API)
    (model : String) (query options : Value) :
    ("search" ∈ API.QUERY_TYPES ∧
      ∃ v, (a.search oracle model query options).2 = .ok v) ∧
    ("create" ∈ API.QUERY_TYPES ∧ ∃ v, (a.create oracle model query).2 = .ok v) ∧
    ("read" ∈ API.QUERY_TYPES ∧ ∃ v, (a.read oracle model query options).2 = .ok v) ∧
    ("write" ∈ API.QUERY_TYPES ∧ ∃ v, (a.update oracle model query options).2 = .ok v) ∧
    ("unlink" ∈ API.QUERY_TYPES ∧ ∃ v, (a.delete oracle model query).2 = .ok v) ∧
    ("search_read" ∈ API.QUERY_TYPES ∧
      ∃ v, (a.search_and_read oracle model query options).2 = .ok v) :=
  ⟨⟨by decide, ⟨_, rfl⟩⟩, ⟨by decide, ⟨_, rfl⟩⟩, ⟨by decide, ⟨_, rfl⟩⟩,
   ⟨by decide, ⟨_, rfl⟩⟩, ⟨by decide, ⟨_, rfl⟩⟩, ⟨by decide, ⟨_, rfl⟩⟩⟩

/-- C2 counterexample: with host and database set, no password anywhere,
and a truthy non-numeric user id in the environment, construction raises
`ValueError` from the `int()` coercion — not the input error — even though
the password is absent.  This refutes the "exactly when" of the claim. -/
theorem C2_counterexample :
    (resolve kwEmpty.odoo_pass envC2.odoo_pass).truthy = false ∧
    API.init kwEmpty envC2 = .error .ValueError ∧
    PyErr.ValueError ≠ PyErr.InputError "odoo_pass" passwordMessage :=
  ⟨rfl, rfl, fun h => PyErr.noConfusion h⟩

/-- C2 (amended): whenever construction raises the input error, its field
names the first falsy required value in the order the code checks them —
`odoo_host` when the host is falsy, `odoo_database` when the host is
truthy and the database falsy, `odoo_pass` when host and database are
truthy and the password falsy; the input error is raised exactly when the
host is falsy, the database is falsy, or the password is falsy and the
user-id coercion does not itself fail first (a truthy non-numeric user id
raises `ValueError` before the password check); when host, database and
password are all truthy, the input error is never raised. -/
theorem C2_input_error_fields (kw : Kwargs) (env : Environ) :
    (∀ f m, API.init kw env = .error (.InputError f m) →
      (f = "odoo_host" ∧ (resolve kw.odoo_host env.odoo_host).truthy = false) ∨
      (f = "odoo_database" ∧ (resolve kw.odoo_host env.odoo_host).truthy = true ∧
        (resolve kw.odoo_database env.odoo_database).truthy = false) ∨
      (f = "odoo_pass" ∧ (resolve kw.odoo_host env.odoo_host).truthy = true ∧
        (resolve kw.odoo_database env.odoo_database).truthy = true ∧
        (resolve kw.odoo_pass env.odoo_pass).truthy = false)) ∧
    ((∃ f m, API.init kw env = .error (.InputError f m)) ↔
      ((resolve kw.odoo_host env.odoo_host).truthy = false ∨
       (resolve kw.odoo_database env.odoo_database).truthy = false ∨
       ((resolve kw.odoo_pass env.odoo_pass).truthy = false ∧
        (resolveUserId (resolve kw.odoo_user env.odoo_user)).isSome = true))) ∧
    ((resolve kw.odoo_host env.odoo_host).truthy = true →
     (resolve kw.odoo_database env.odoo_database).truthy = true →
     (resolve kw.odoo_pass env.odoo_pass).truthy = true →
     ∀ f m, API.init kw env ≠ .error (.InputError f m)) := by
  unfold API.init
  generalize resolve kw.odoo_host env.odoo_host = hv
  generalize resolve kw.odoo_database env.odoo_database = dv
  generalize resolve kw.odoo_user env.odoo_user = uv
  generalize resolve kw.odoo_pass env.odoo_pass = pv
  generalize resolveTls kw.verify_tls env.verify_tls = tv
  cases hh : hv.truthy <;> cases hd : dv.truthy <;>
    rcases hu : resolveUserId uv with _ | ⟨uid, wd⟩ <;> cases hp : pv.truthy <;>
    simp_all [API.initCore]

/-- Witness for C2: with nothing configured, construction raises the input
error for the hostname, and the theorem locates its field as the first
falsy one in checking order. -/
theorem C2_witness :
    API.init kwEmpty envEmpty = .error (.InputError "odoo_host" hostnameMessage) ∧
    (("odoo_host" = "odoo_host" ∧ (resolve kwEmpty.odoo_host envEmpty.odoo_host).truthy = false) ∨
     ("odoo_host" = "odoo_database" ∧ (resolve kwEmpty.odoo_host envEmpty.odoo_host).truthy = true ∧
      (resolve kwEmpty.odoo_database envEmpty.odoo_database).truthy = false) ∨
     ("odoo_host" = "odoo_pass" ∧ (resolve kwEmpty.odoo_host envEmpty.odoo_host).truthy = true ∧
      (resolve kwEmpty.odoo_database envEmpty.odoo_database).truthy = true ∧
      (resolve kwEmpty.odoo_pass envEmpty.odoo_pass).truthy = false)) :=
  ⟨rfl, (C2_input_error_fields kwEmpty envEmpty).1 "odoo_host" hostnameMessage rfl⟩

/-- C5: when construction succeeds and no `verify_tls` keyword argument
was given, the flag is the truthiness of the environment string — true for
every non-empty string including `"False"` and `"0"`, false for the empty
string; a passed keyword argument contributes its own truthiness, and with
neither present the flag defaults to true. -/
theorem C5_verify_tls_truthiness (kw : Kwargs) (env : Environ) (a : API) (w : Bool)
    (hok : API.init kw env = .ok (a, w)) :
    (∀ s, kw.verify_tls = none → env.verify_tls = some s →
      a.verify_tls = !s.isEmpty) ∧
    (∀ v, kw.verify_tls = some v → a.verify_tls = v.truthy) ∧
    (kw.verify_tls = none → env.verify_tls = none → a.verify_tls = true) := by
  unfold API.init at hok
  have htls := initCore_ok_verify_tls hok
  refine ⟨?_, ?_, ?_⟩
  · intro s h1 h2
    rw [htls]
    simp [resolveTls, h1, h2, Value.truthy]
  · intro v h1
    rw [htls]
    simp [resolveTls, h1]
  · intro h1 h2
    rw [htls]
    simp [resolveTls, h1, h2, Value.truthy]

/-- Witness for C5: the environment string `"False"` yields a client whose
verify-transport-security flag is true. -/
theorem C5_witness :
    API.init kwEmpty envC5 = .ok (apiC5, true) ∧ apiC5.verify_tls = true :=
  ⟨rfl, (C5_verify_tls_truthiness kwEmpty envC5 apiC5 true rfl).1 "False" rfl rfl⟩

/-- C6 counterexample: the environment variable `odoo_user` is present but
is the empty string — a non-numeric value on which `int()` fails — yet
construction does not fail: the empty string is falsy, so the code takes
the default-to-1-with-a-warning branch instead of coercing.  This refutes
the claim that every present user identifier is coerced to an integer with
failure on non-numeric values. -/
theorem C6_counterexample :
    envC6.odoo_user = some "" ∧
    pyInt (resolve kwEmpty.odoo_user envC6.odoo_user) = none ∧
    API.init kwEmpty envC6 =
      .ok (⟨.vStr "h", .vStr "d", .vInt 1, .vStr "p", true⟩, true) :=
  ⟨rfl, rfl, rfl⟩

/-- C6 (amended): with host, database and password all truthy, a falsy
resolved user identifier (absent, or present but falsy such as the empty
string) makes construction succeed with user id `1` and the warning
printed; a truthy user identifier is coerced with `int()`, giving the
coerced id without a warning on numeric values and a `ValueError` failure
on non-numeric ones. -/
theorem C6_user_id_default (kw : Kwargs) (env : Environ)
    (hh : (resolve kw.odoo_host env.odoo_host).truthy = true)
    (hd : (resolve kw.odoo_database env.odoo_database).truthy = true)
    (hp : (resolve kw.odoo_pass env.odoo_pass).truthy = true) :
    ((resolve kw.odoo_user env.odoo_user).truthy = false →
      API.init kw env = .ok (⟨resolve kw.odoo_host env.odoo_host,
        resolve kw.odoo_database env.odoo_database, .vInt 1,
        resolve kw.odoo_pass env.odoo_pass,
        resolveTls kw.verify_tls env.verify_tls⟩, true)) ∧
    ((resolve kw.odoo_user env.odoo_user).truthy = true →
      (∀ n, pyInt (resolve kw.odoo_user env.odoo_user) = some n →
        API.init kw env = .ok (⟨resolve kw.odoo_host env.odoo_host,
          resolve kw.odoo_database env.odoo_database, .vInt n,
          resolve kw.odoo_pass env.odoo_pass,
          resolveTls kw.verify_tls env.verify_tls⟩, false)) ∧
      (pyInt (resolve kw.odoo_user env.odoo_user) = none →
        API.init kw env = .error .ValueError)) := by
  refine ⟨?_, fun hu => ⟨?_, ?_⟩⟩
  · intro hu
    simp [API.init, API.initCore, resolveUserId, hh, hd, hp, hu]
  · intro n hn
    simp [API.init, API.initCore, resolveUserId, hh, hd, hp, hn, hu]
  · intro hn
    simp [API.init, API.initCore, resolveUserId, hh, hd, hp, hn, hu]

/-- Witness for C6: with host, database and password set and the user
identifier absent, construction succeeds with user id `1` and the
warning. -/
theorem C6_witness :
    API.init kwEmpty envC6w =
      .ok (⟨.vStr "h", .vStr "d", .vInt 1, .vStr "p", true⟩, true) :=
  (C6_user_id_default kwEmpty envC6w rfl rfl rfl).1 rfl
